import Mathlib

/-!
Shallow embedding of the YLOS storefront checkout core from
src/YLOS_system (Cart, CartItem, ShippingPolicy, PaymentService,
Address, Order, OrderItem, CheckoutService).

Conventions of the embedding:
* Python Decimal values are modelled by the executable fixed-point type
  Dec below (an integer mantissa with a power-of-ten exponent). The
  embedded sources only add Decimals, multiply them by integers or by
  each other, and compare them; those operations are exact on decimals,
  so Dec represents them faithfully. Comparisons written in the source
  with Python operators are numeric-value comparisons and are embedded
  through Dec.eqv, Dec.lt and Dec.le.
* Python exceptions are modelled with Except Err; each raise site in the
  embedded sources gets its own Err constructor.
* Dynamic isinstance and key-presence checks on values that the typed
  embedding already constrains (for example, that a catalogue name is a
  string) are vacuous here and omitted; value-level checks (emptiness,
  sign, range) are kept. The quantity arguments of Cart.add and
  Cart.update_qty are an exception: the source never enforces their int
  annotation, and Cart.update_qty inspects the value before validating
  its type, so quantities are embedded as dynamic numeric values.
* Nondeterministic inputs of the source (uuid4 order ids, datetime.now
  timestamps) are passed in explicitly as arguments.
* The Python dict holding cart lines is embedded as an ordered
  association list keyed by the product_id field of the stored items:
  assignment replaces an existing entry in place or appends a fresh one,
  deletion drops the entry, matching dict insertion-order semantics.
-/

namespace YLOS

/-- Decidable equality on Except results, used to evaluate the embedded
operations on concrete inputs. -/
instance {ε α : Type} [DecidableEq ε] [DecidableEq α] : DecidableEq (Except ε α) :=
  fun a b =>
    match a, b with
    | .ok x, .ok y =>
      if h : x = y then .isTrue (by rw [h])
      else .isFalse (fun hc => h (by injection hc))
    | .error e, .error f =>
      if h : e = f then .isTrue (by rw [h])
      else .isFalse (fun hc => h (by injection hc))
    | .ok _, .error _ => .isFalse (fun hc => Except.noConfusion hc)
    | .error _, .ok _ => .isFalse (fun hc => Except.noConfusion hc)

/-- Ten to a natural power, by structural recursion. -/
def pow10 : Nat → Int
  | 0 => 1
  | e + 1 => 10 * pow10 e

/-- Fixed-point decimal number: num times ten to the minus exp. The
arithmetic below keeps results in the canonical form produced by
Dec.canon, so one value of Python Decimal corresponds to one Dec. -/
structure Dec where
  num : Int
  exp : Nat
deriving DecidableEq

namespace Dec

/-- Strip trailing zero digits of the mantissa. -/
def canon : Int → Nat → Dec
  | n, 0 => ⟨n, 0⟩
  | n, e + 1 => if n % 10 = 0 then canon (n / 10) e else ⟨n, e + 1⟩

/-- The Decimal 0.00. -/
def zero : Dec := ⟨0, 0⟩

/-- Exact Decimal addition. -/
def add (a b : Dec) : Dec :=
  canon (a.num * pow10 b.exp + b.num * pow10 a.exp) (a.exp + b.exp)

/-- Exact Decimal multiplication. -/
def mul (a b : Dec) : Dec :=
  canon (a.num * b.num) (a.exp + b.exp)

/-- Exact multiplication of a Decimal by a Python int. -/
def mulInt (a : Dec) (k : Int) : Dec :=
  canon (a.num * k) a.exp

/-- Numeric equality of decimal values, the Python eq comparison. -/
def eqv (a b : Dec) : Prop :=
  a.num * pow10 b.exp = b.num * pow10 a.exp

/-- Numeric strict order, the Python lt comparison. -/
def lt (a b : Dec) : Prop :=
  a.num * pow10 b.exp < b.num * pow10 a.exp

/-- Numeric order, the Python le comparison. -/
def le (a b : Dec) : Prop :=
  a.num * pow10 b.exp ≤ b.num * pow10 a.exp

instance (a b : Dec) : Decidable (Dec.eqv a b) :=
  inferInstanceAs (Decidable (a.num * pow10 b.exp = b.num * pow10 a.exp))

instance (a b : Dec) : Decidable (Dec.lt a b) :=
  inferInstanceAs (Decidable (a.num * pow10 b.exp < b.num * pow10 a.exp))

instance (a b : Dec) : Decidable (Dec.le a b) :=
  inferInstanceAs (Decidable (a.num * pow10 b.exp ≤ b.num * pow10 a.exp))

end Dec

/-- Python str.strip: drop whitespace from both ends. -/
def pyStrip (s : String) : String :=
  ⟨((s.toList.dropWhile Char.isWhitespace).reverse.dropWhile Char.isWhitespace).reverse⟩

/-- Error kinds, one per raise site in the embedded sources. -/
inductive Err where
  | qtyBool
  | qtyNotInt
  | qtyTooSmall
  | productNotFound
  | invalidName
  | negativePrice
  | invalidStock
  | outOfStock (stock : Int)
  | notInCart
  | itemNegativePrice
  | itemQtyTooSmall
  | emptyCart
  | invalidAddress (msg : String)
  | negativeTotal
  | orderTotalMismatch
  | orderIdRequired
  | orderItemsRequired
  | orderNegativeShipping
  | orderTotalNotPositive
  | orderItemBadProductId
  | orderItemBadName
  | orderItemNegativePrice
  | orderItemQtyTooSmall
  | invalidStateTransition
deriving DecidableEq

/-- Python numeric runtime value for quantity arguments: the source
annotates qty as int but never enforces it, and update_qty compares
qty with 0 before any type validation, so booleans and floats reach
that comparison. A float value is carried as the decimal it denotes
exactly (every finite binary fraction is a finite decimal). -/
inductive PyVal where
  | vint (n : Int)
  | vbool (b : Bool)
  | vfloat (d : Dec)
deriving DecidableEq

/-- Numeric value used by the Python equality comparison: False equals 0
and the float 0.0 equals 0. -/
def PyVal.toDec : PyVal → Dec
  | .vint n => ⟨n, 0⟩
  | .vbool b => ⟨if b then 1 else 0, 0⟩
  | .vfloat d => d

/-- Record returned by the catalogue port get_product. -/
structure Product where
  name : String
  price : Dec
  stock : Int
deriving DecidableEq

/-- Catalogue port: get_product as an optional lookup. -/
abbrev Catalogue := String → Option Product

/-- Immutable snapshot of a cart line. The source constructor stores the
given fields unchanged (no stripping) after validating price and qty. -/
structure CartItem where
  product_id : String
  name : String
  unit_price : Dec
  qty : Int
deriving DecidableEq

/-- CartItem constructor together with its validation. -/
def CartItem.make (product_id name : String) (unit_price : Dec) (qty : Int) :
    Except Err CartItem :=
  if unit_price.lt Dec.zero then .error .itemNegativePrice
  else if qty < 1 then .error .itemQtyTooSmall
  else .ok ⟨product_id, name, unit_price, qty⟩

/-- Line total at the captured price. -/
def CartItem.subtotal (it : CartItem) : Dec :=
  it.unit_price.mulInt it.qty

/-- Returns a new CartItem with updated quantity, delegating validation
to the constructor. -/
def CartItem.with_qty (it : CartItem) (new_qty : Int) : Except Err CartItem :=
  CartItem.make it.product_id it.name it.unit_price new_qty

/-- Cart state: the internal dict from product_id to CartItem. -/
structure Cart where
  items : List CartItem
deriving DecidableEq

/-- Dict lookup by product id (also the membership test). -/
def findItem (l : List CartItem) (pid : String) : Option CartItem :=
  l.find? (fun it => it.product_id == pid)

/-- Dict assignment: replace the first entry with the given key in place,
or append a new entry at the end. -/
def setItem : List CartItem → String → CartItem → List CartItem
  | [], _, it => [it]
  | x :: xs, pid, it =>
    if x.product_id == pid then it :: xs else x :: setItem xs pid it

/-- Dict deletion: drop the first entry with the given key. -/
def removeItem : List CartItem → String → List CartItem
  | [], _ => []
  | x :: xs, pid =>
    if x.product_id == pid then xs else x :: removeItem xs pid

/-- Sum of line subtotals, starting from Decimal 0.00. -/
def Cart.subtotal (c : Cart) : Dec :=
  c.items.foldl (fun acc it => acc.add it.subtotal) Dec.zero

/-- True if the cart has no items. -/
def Cart.is_empty (c : Cart) : Bool :=
  c.items.isEmpty

/-- Quantity already held in the cart for a product id (0 when absent). -/
def existingQty (c : Cart) (pid : String) : Int :=
  match findItem c.items pid with
  | some it => it.qty
  | none => 0

/-- Cart.add from the source. The bool check precedes the int check
because bool is a subclass of int in Python. -/
def Cart.add (cat : Catalogue) (c : Cart) (product_id : String) (qty : PyVal) :
    Except Err Cart :=
  match qty with
  | .vbool _ => .error .qtyBool
  | .vfloat _ => .error .qtyNotInt
  | .vint q =>
    if q < 1 then .error .qtyTooSmall
    else
      match cat product_id with
      | none => .error .productNotFound
      | some fetch =>
        if pyStrip fetch.name = "" then .error .invalidName
        else if fetch.price.lt Dec.zero then .error .negativePrice
        else if fetch.stock < 0 then .error .invalidStock
        else
          let intended_qty := existingQty c product_id + q
          if intended_qty > fetch.stock then .error (.outOfStock fetch.stock)
          else
            match findItem c.items product_id with
            | some old_item =>
              match old_item.with_qty intended_qty with
              | .error e => .error e
              | .ok new_item => .ok ⟨setItem c.items product_id new_item⟩
            | none =>
              match CartItem.make product_id fetch.name fetch.price intended_qty with
              | .error e => .error e
              | .ok new_item => .ok ⟨setItem c.items product_id new_item⟩

/-- Cart.remove from the source: delete the line or fail when absent. -/
def Cart.remove (c : Cart) (product_id : String) : Except Err Cart :=
  match findItem c.items product_id with
  | none => .error .notInCart
  | some _ => .ok ⟨removeItem c.items product_id⟩

/-- Cart.update_qty from the source. The comparison of qty with 0 comes
before the type validation, so any value comparing numerically equal to
0 removes the line. -/
def Cart.update_qty (cat : Catalogue) (c : Cart) (product_id : String) (qty : PyVal) :
    Except Err Cart :=
  match findItem c.items product_id with
  | none => .error .notInCart
  | some old_item =>
    if qty.toDec.eqv Dec.zero then c.remove product_id
    else
      match qty with
      | .vbool _ => .error .qtyBool
      | .vfloat _ => .error .qtyNotInt
      | .vint q =>
        if q < 1 then .error .qtyTooSmall
        else
          let existing_qty := old_item.qty
          if q = existing_qty then .ok c
          else
            let replaceLine : Except Err Cart :=
              match old_item.with_qty q with
              | .error e => .error e
              | .ok new_item => .ok ⟨setItem c.items product_id new_item⟩
            if q > existing_qty then
              match cat product_id with
              | none => .error .productNotFound
              | some fetch =>
                if fetch.stock < 0 then .error .invalidStock
                else if q > fetch.stock then .error (.outOfStock fetch.stock)
                else replaceLine
            else replaceLine

/-- Cart.clear: unconditionally empty the cart. -/
def Cart.clear (_c : Cart) : Cart :=
  ⟨[]⟩

/-- Delivery address value object. The source class body is an
unimplemented skeleton: the constructor stores nothing and every method
body is the statement pass. -/
structure Address where
  street : String
  city : String
  state : String
  postcode : String
deriving DecidableEq

/-- Address.validate from the source: the method body is pass, so the
call returns None (meaning no validation error) for every address. -/
def Address.validate (_a : Address) : Option String :=
  none

/-- Shipping rules provider: a flat rate and an optional free-shipping
threshold. -/
structure ShippingPolicy where
  flat_rate : Dec
  free_over : Option Dec
deriving DecidableEq

/-- ShippingPolicy.cost_for from the source: zero when a threshold is
configured and the cart subtotal reaches it, the flat rate otherwise.
The address argument is accepted but unused, as in the source. -/
def ShippingPolicy.cost_for (p : ShippingPolicy) (cart : Cart) (_address : Address) : Dec :=
  let cart_subtotal := cart.subtotal
  match p.free_over with
  | some threshold =>
    if threshold.le cart_subtotal then Dec.zero else p.flat_rate
  | none => p.flat_rate

/-- Payment gateway port: charge as a pure outcome function. -/
abbrev Gateway := String → Dec → Bool × String

/-- Payment service with an optional injected gateway. -/
structure PaymentService where
  gateway : Option Gateway

/-- PaymentService.charge from the source: failure results for an empty
order id or a negative amount, delegation to the gateway when present,
and a deterministic demo success otherwise. The text rendering of the
charged amount inside the demo message is abstracted by amountText. -/
def amountText (amount : Dec) : String :=
  toString amount.num ++ "E-" ++ toString amount.exp

def PaymentService.charge (ps : PaymentService) (order_id : String) (amount : Dec) :
    Bool × String :=
  if pyStrip order_id = "" then (false, "invalid order_id")
  else if amount.lt Dec.zero then (false, "amount cannot be negative")
  else
    match ps.gateway with
    | some g => g order_id amount
    | none => (true, "Payment approved for order " ++ order_id ++ " amount " ++ amountText amount)

/-- Order status values of the source class attribute ALLOWED_STATUSES. -/
inductive OrderStatus where
  | PENDING
  | PAID
  | FULFILLED
  | SHIPPED
  | DELIVERED
  | CANCELLED
deriving DecidableEq

/-- Immutable snapshot of an order line. The source constructor strips
the product id and the name before storing them. -/
structure OrderItem where
  product_id : String
  name : String
  unit_price : Dec
  qty : Int
deriving DecidableEq

/-- OrderItem constructor together with its validation. -/
def OrderItem.make (product_id name : String) (unit_price : Dec) (qty : Int) :
    Except Err OrderItem :=
  if pyStrip product_id = "" then .error .orderItemBadProductId
  else if pyStrip name = "" then .error .orderItemBadName
  else if unit_price.lt Dec.zero then .error .orderItemNegativePrice
  else if qty < 1 then .error .orderItemQtyTooSmall
  else .ok ⟨pyStrip product_id, pyStrip name, unit_price, qty⟩

/-- Line total of an order line. -/
def OrderItem.subtotal (oi : OrderItem) : Dec :=
  oi.unit_price.mulInt oi.qty

/-- Customer order record. Timestamps are the clock values passed in at
construction and at payment. -/
structure Order where
  id : String
  items : List OrderItem
  address : Address
  shipping : Dec
  total : Dec
  status : OrderStatus
  created_at : Nat
  paid_at : Option Nat
deriving DecidableEq

/-- Order constructor together with its validation: the id is stripped
and must stay non-empty, the item list must be non-empty, shipping must
be non-negative and the total positive. The membership check of the
status in ALLOWED_STATUSES is vacuous on the OrderStatus type and the
address non-None check is vacuous on the Address type. -/
def Order.make (id : String) (items : List OrderItem) (address : Address)
    (shipping total : Dec) (status : OrderStatus) (now : Nat) :
    Except Err Order :=
  if pyStrip id = "" then .error .orderIdRequired
  else if items.isEmpty then .error .orderItemsRequired
  else if shipping.lt Dec.zero then .error .orderNegativeShipping
  else if total.le Dec.zero then .error .orderTotalNotPositive
  else .ok ⟨pyStrip id, items, address, shipping, total, status, now, none⟩

/-- Order.mark_paid from the source: the single legal transition from
PENDING to PAID, recording the payment timestamp. -/
def Order.mark_paid (o : Order) (now : Nat) : Except Err Order :=
  if o.status ≠ .PENDING then .error .invalidStateTransition
  else .ok { o with status := .PAID, paid_at := some now }

/-- Order.calculate_subtotal from the source: recompute the sum of line
subtotals from the stored items on demand. -/
def Order.calculate_subtotal (o : Order) : Dec :=
  o.items.foldl (fun acc oi => acc.add oi.subtotal) Dec.zero

/-- Checkout orchestration service with its collaborators. -/
structure CheckoutService where
  cart : Cart
  shipping_policy : ShippingPolicy
  payment_service : PaymentService

/-- CheckoutService.compute_totals from the source: empty-cart guard,
address validation, subtotal plus shipping, defensive negative-total
guard. -/
def CheckoutService.compute_totals (svc : CheckoutService) (address : Address) :
    Except Err (Dec × Dec × Dec) :=
  if svc.cart.is_empty then .error .emptyCart
  else
    match address.validate with
    | some msg => .error (.invalidAddress msg)
    | none =>
      let subtotal := svc.cart.subtotal
      let shipping := svc.shipping_policy.cost_for svc.cart address
      let total := subtotal.add shipping
      if total.lt Dec.zero then .error .negativeTotal
      else .ok (subtotal, shipping, total)

/-- The copy loop of the source helper create_order_from_cart: each
CartItem is copied into an independent OrderItem through the OrderItem
constructor, keeping the list order. -/
def copyItems : List CartItem → Except Err (List OrderItem)
  | [] => .ok []
  | item :: rest =>
    match OrderItem.make item.product_id item.name item.unit_price item.qty with
    | .error e => .error e
    | .ok oi =>
      match copyItems rest with
      | .error e => .error e
      | .ok ois => .ok (oi :: ois)

/-- CheckoutService helper create_order_from_cart from the source: copy
the cart lines, recompute subtotal and total from the copies, and build
a PENDING Order. The fresh uuid4 id and the construction time are passed
in as order_id and now. -/
def CheckoutService.create_order_from_cart (cart : Cart) (address : Address)
    (shipping : Dec) (order_id : String) (now : Nat) : Except Err Order :=
  match copyItems cart.items with
  | .error e => .error e
  | .ok order_items =>
    let subtotal := order_items.foldl (fun acc oi => acc.add (oi.unit_price.mulInt oi.qty)) Dec.zero
    let total := subtotal.add shipping
    Order.make order_id order_items address shipping total .PENDING now

/-- CheckoutService.place_order from the source: compute totals, build a
PENDING order, check the recomputed total against the computed one,
charge, and either mark paid and clear the cart or keep both for a
retry. The isinstance checks on the charge result are vacuous on the
typed Bool times String result and omitted. The returned tuple carries
the updated service state and order next to the (order id, message) pair
of the source. -/
def CheckoutService.place_order (svc : CheckoutService) (address : Address)
    (order_id : String) (now : Nat) :
    Except Err (CheckoutService × Order × String × String) :=
  match svc.compute_totals address with
  | .error e => .error e
  | .ok (_subtotal, shipping, total) =>
    match CheckoutService.create_order_from_cart svc.cart address shipping order_id now with
    | .error e => .error e
    | .ok order =>
      if ¬ order.total.eqv total then .error .orderTotalMismatch
      else
        let charged := svc.payment_service.charge order.id total
        let success := charged.1
        let message := charged.2
        if success then
          match order.mark_paid now with
          | .error e => .error e
          | .ok order2 => .ok ({ svc with cart := svc.cart.clear }, order2, order.id, message)
        else .ok (svc, order, order.id, message)

/-! Concrete fixtures shared by the witnesses and counterexamples. -/

/-- Catalogue of the checkout scenarios: one product MILK1 at 3.50 with
stock 20. -/
def milkCat : Catalogue :=
  fun pid => if pid = "MILK1" then some ⟨"Milk", ⟨35, 1⟩, 20⟩ else none

/-- Cart of the checkout scenarios: one line MILK1, unit price 3.50,
qty 2. -/
def milkCart : Cart := ⟨[⟨"MILK1", "Milk", ⟨35, 1⟩, 2⟩]⟩

/-- Flat rate 7.50, no free-shipping threshold. -/
def flatPolicy : ShippingPolicy := ⟨⟨75, 1⟩, none⟩

/-- A concrete delivery address. -/
def addrA : Address := ⟨"123 Main St", "Melbourne", "VIC", "3000"⟩

/-- Payment service whose gateway always approves. -/
def payApprove : PaymentService := ⟨some (fun _ _ => (true, "approved"))⟩

/-- Payment service whose gateway always declines. -/
def payDecline : PaymentService := ⟨some (fun _ _ => (false, "declined"))⟩

/-- Checkout service of the successful-checkout scenario. -/
def svcApprove : CheckoutService := ⟨milkCart, flatPolicy, payApprove⟩

/-- Checkout service of the failed-payment scenario. -/
def svcDecline : CheckoutService := ⟨milkCart, flatPolicy, payDecline⟩

/-! Helper lemmas. -/

/-- Numeric equality of decimal values is reflexive. -/
theorem Dec.eqv_refl (a : Dec) : a.eqv a := rfl

/-- Snapshot copy of a cart line exactly as the OrderItem constructor
stores it: id and name stripped, price and qty unchanged. -/
def trimCopy (it : CartItem) : OrderItem :=
  ⟨pyStrip it.product_id, pyStrip it.name, it.unit_price, it.qty⟩

/-- Inversion of a successful OrderItem construction. -/
theorem orderItem_make_ok {pid n : String} {p : Dec} {q : Int} {oi : OrderItem}
    (h : OrderItem.make pid n p q = .ok oi) :
    oi = ⟨pyStrip pid, pyStrip n, p, q⟩ := by
  unfold OrderItem.make at h
  split_ifs at h
  all_goals first
    | exact Except.noConfusion h
    | (injection h with h2; exact h2.symm)

/-- Inversion of a successful CartItem construction. -/
theorem cartItem_make_ok {pid n : String} {p : Dec} {q : Int} {it : CartItem}
    (h : CartItem.make pid n p q = .ok it) :
    it = ⟨pid, n, p, q⟩ := by
  unfold CartItem.make at h
  split_ifs at h
  all_goals first
    | exact Except.noConfusion h
    | (injection h with h2; exact h2.symm)

/-- Inversion of a successful cart-line copy: the copies are exactly the
stripped snapshots of the cart lines, in order. -/
theorem copyItems_ok : ∀ {l : List CartItem} {ois : List OrderItem},
    copyItems l = .ok ois → ois = l.map trimCopy := by
  intro l
  induction l with
  | nil =>
    intro ois h
    unfold copyItems at h
    injection h with h2
    exact h2.symm
  | cons x xs ih =>
    intro ois h
    unfold copyItems at h
    cases hm : OrderItem.make x.product_id x.name x.unit_price x.qty with
    | error e => rw [hm] at h; exact Except.noConfusion h
    | ok oi =>
      rw [hm] at h
      cases hr : copyItems xs with
      | error e => rw [hr] at h; exact Except.noConfusion h
      | ok rest =>
        rw [hr] at h
        injection h with h2
        rw [← h2, orderItem_make_ok hm, ih hr]
        rfl

/-- Inversion of a successful Order construction. -/
theorem order_make_ok {id : String} {items : List OrderItem} {a : Address}
    {sh tot : Dec} {st : OrderStatus} {now : Nat} {o : Order}
    (h : Order.make id items a sh tot st now = .ok o) :
    o = ⟨pyStrip id, items, a, sh, tot, st, now, none⟩ := by
  unfold Order.make at h
  split_ifs at h
  all_goals first
    | exact Except.noConfusion h
    | (injection h with h2; exact h2.symm)

/-- Inversion of a successful compute_totals call. -/
theorem compute_totals_ok {svc : CheckoutService} {a : Address} {st sh tot : Dec}
    (h : svc.compute_totals a = .ok (st, sh, tot)) :
    svc.cart.is_empty = false ∧ st = svc.cart.subtotal ∧
    sh = svc.shipping_policy.cost_for svc.cart a ∧ tot = st.add sh := by
  simp only [CheckoutService.compute_totals, Address.validate] at h
  split_ifs at h with h1 h2
  all_goals first
    | exact Except.noConfusion h
    | (injection h with h3
       injection h3 with h4 h5
       injection h5 with h6 h7
       refine ⟨by simpa using h1, h4.symm, h6.symm, ?_⟩
       rw [← h7, h4, h6])

/-- Inversion of a successful create_order_from_cart call: the order is
the stripped snapshot of the cart with the recomputed total, which
agrees with the cart subtotal plus shipping, in PENDING status. -/
theorem create_order_ok {cart : Cart} {a : Address} {sh : Dec} {oid : String}
    {now : Nat} {order : Order}
    (h : CheckoutService.create_order_from_cart cart a sh oid now = .ok order) :
    order = ⟨pyStrip oid, cart.items.map trimCopy, a, sh,
             cart.subtotal.add sh, .PENDING, now, none⟩ := by
  simp only [CheckoutService.create_order_from_cart] at h
  cases hc : copyItems cart.items with
  | error e => rw [hc] at h; exact Except.noConfusion h
  | ok ois =>
    rw [hc] at h
    rw [order_make_ok h, copyItems_ok hc]
    have hsub :
        (cart.items.map trimCopy).foldl
            (fun acc oi => acc.add (oi.unit_price.mulInt oi.qty)) Dec.zero
          = cart.subtotal := by
      rw [List.foldl_map]
      rfl
    rw [hsub]

/-- Behaviour of place_order once totals are computed and the order is
created: the recomputed total always passes the consistency check, and
the outcome is decided by the charge result. -/
theorem place_order_charge {svc : CheckoutService} {a : Address} {oid : String}
    {now : Nat} {st sh tot : Dec} {order : Order}
    (hct : svc.compute_totals a = .ok (st, sh, tot))
    (hco : CheckoutService.create_order_from_cart svc.cart a sh oid now = .ok order) :
    svc.place_order a oid now =
      (if (svc.payment_service.charge order.id tot).1 then
        .ok ({ svc with cart := svc.cart.clear },
             { order with status := .PAID, paid_at := some now },
             order.id, (svc.payment_service.charge order.id tot).2)
      else .ok (svc, order, order.id, (svc.payment_service.charge order.id tot).2)) := by
  have htot : order.total = tot := by
    obtain ⟨_, hst, _, htot2⟩ := compute_totals_ok hct
    rw [create_order_ok hco, htot2, hst]
  have hstat : order.status = .PENDING := by
    rw [create_order_ok hco]
  simp only [CheckoutService.place_order, hct, hco]
  rw [if_neg (by rw [htot]; exact not_not_intro (Dec.eqv_refl tot))]
  simp only [Order.mark_paid, hstat, if_neg]
  split
  · rfl
  · rfl

/-- Order built by the successful-checkout scenario before payment. -/
def milkOrder : Order :=
  ⟨"oid1", [⟨"MILK1", "Milk", ⟨35, 1⟩, 2⟩], addrA, ⟨75, 1⟩, ⟨145, 1⟩, .PENDING, 0, none⟩

/-! Claim theorems. -/

/-- Claim C1: for every cart and validated address, when compute_totals
succeeds and the payment charge issued by place_order returns success
with a message, place_order marks the created order PAID, clears the
cart (is_empty holds afterwards) and returns the pair of the order id
and the message; and in the concrete scenario of one line MILK1 at 3.50
with qty 2 and a flat rate of 7.50 with no free-shipping threshold,
compute_totals returns exactly (7.00, 7.50, 14.50). -/
theorem C1_place_order_success (svc : CheckoutService) (address : Address)
    (order_id : String) (now : Nat) (st sh tot : Dec) (order : Order) (msg : String)
    (hct : svc.compute_totals address = .ok (st, sh, tot))
    (hco : CheckoutService.create_order_from_cart svc.cart address sh order_id now = .ok order)
    (hch : svc.payment_service.charge order.id tot = (true, msg)) :
    (svc.place_order address order_id now =
        .ok ({ svc with cart := svc.cart.clear },
             { order with status := .PAID, paid_at := some now }, order.id, msg)
      ∧ ({ order with status := .PAID, paid_at := some now } : Order).status = .PAID
      ∧ (svc.cart.clear).is_empty = true)
    ∧ svcApprove.compute_totals addrA = .ok (⟨7, 0⟩, ⟨75, 1⟩, ⟨145, 1⟩) := by
  refine ⟨⟨?_, rfl, rfl⟩, by decide⟩
  rw [place_order_charge hct hco, hch]
  simp

/-- Witness for C1 at the successful-checkout scenario. -/
theorem C1_place_order_success_witness :
    svcApprove.place_order addrA "oid1" 0 =
      .ok ({ svcApprove with cart := svcApprove.cart.clear },
           { milkOrder with status := .PAID, paid_at := some 0 }, milkOrder.id, "approved") :=
  (C1_place_order_success svcApprove addrA "oid1" 0 ⟨7, 0⟩ ⟨75, 1⟩ ⟨145, 1⟩ milkOrder
    "approved" (by decide) (by decide) (by decide)).1.1

/-- Claim C2: for every cart and validated address, when the payment
charge issued by place_order returns failure with a message, place_order
returns the pair of the order id and the message, the created order is
still PENDING, and the service state comes back unchanged, so the cart
holds exactly the lines it held at the call. -/
theorem C2_place_order_failure (svc : CheckoutService) (address : Address)
    (order_id : String) (now : Nat) (st sh tot : Dec) (order : Order) (msg : String)
    (hct : svc.compute_totals address = .ok (st, sh, tot))
    (hco : CheckoutService.create_order_from_cart svc.cart address sh order_id now = .ok order)
    (hch : svc.payment_service.charge order.id tot = (false, msg)) :
    svc.place_order address order_id now = .ok (svc, order, order.id, msg)
      ∧ order.status = .PENDING := by
  refine ⟨?_, by rw [create_order_ok hco]⟩
  rw [place_order_charge hct hco, hch]
  simp

/-- Witness for C2 at the failed-payment scenario. -/
theorem C2_place_order_failure_witness :
    svcDecline.place_order addrA "oid1" 0 = .ok (svcDecline, milkOrder, milkOrder.id, "declined")
      ∧ milkOrder.status = .PENDING :=
  C2_place_order_failure svcDecline addrA "oid1" 0 ⟨7, 0⟩ ⟨75, 1⟩ ⟨145, 1⟩ milkOrder
    "declined" (by decide) (by decide) (by decide)

/-- Claim C3: in a run of place_order where the cart is unchanged between
the totals computation and the order construction (automatic in this
sequential embedding), the total recomputed from the copied order items
plus shipping equals the total computed by compute_totals, so the
order-total-mismatch branch is never taken. -/
theorem C3_total_consistency (svc : CheckoutService) (address : Address)
    (order_id : String) (now : Nat) (st sh tot : Dec) (order : Order)
    (hct : svc.compute_totals address = .ok (st, sh, tot))
    (hco : CheckoutService.create_order_from_cart svc.cart address sh order_id now = .ok order) :
    order.total = tot
      ∧ svc.place_order address order_id now ≠ .error .orderTotalMismatch := by
  obtain ⟨_, hst, _, htot2⟩ := compute_totals_ok hct
  refine ⟨by rw [create_order_ok hco, htot2, hst], ?_⟩
  rw [place_order_charge hct hco]
  split
  · exact fun hc => Except.noConfusion hc
  · exact fun hc => Except.noConfusion hc

/-- Witness for C3 at the successful-checkout scenario. -/
theorem C3_total_consistency_witness :
    milkOrder.total = ⟨145, 1⟩
      ∧ svcApprove.place_order addrA "oid1" 0 ≠ .error .orderTotalMismatch :=
  C3_total_consistency svcApprove addrA "oid1" 0 ⟨7, 0⟩ ⟨75, 1⟩ ⟨145, 1⟩ milkOrder
    (by decide) (by decide)

/-- Catalogue whose product P1 carries a name with surrounding
whitespace, which the catalogue name validation of Cart.add accepts. -/
def wsCat : Catalogue :=
  fun pid => if pid = "P1" then some ⟨" Milk ", ⟨35, 1⟩, 20⟩ else none

/-- Cart holding the line produced by adding P1 from wsCat: the CartItem
keeps the name unstripped. -/
def wsCart : Cart := ⟨[⟨"P1", " Milk ", ⟨35, 1⟩, 2⟩]⟩

/-- Counterexample to claim C4 as stated: a cart line whose name carries
surrounding whitespace is reachable through Cart.add, and the OrderItem
built from it by create_order_from_cart stores the stripped name, so the
order item does not equal the cart item field for field. -/
theorem C4_counterexample :
    Cart.add wsCat ⟨[]⟩ "P1" (.vint 2) = .ok wsCart
      ∧ (CheckoutService.create_order_from_cart wsCart addrA ⟨75, 1⟩ "oid1" 0).map
          (fun o => o.items.map (fun oi => (oi.product_id, oi.name, oi.unit_price, oi.qty)))
          = .ok [("P1", "Milk", ⟨35, 1⟩, 2)]
      ∧ wsCart.items.map (fun it => (it.product_id, it.name, it.unit_price, it.qty))
          = [("P1", " Milk ", ⟨35, 1⟩, 2)]
      ∧ ("Milk" : String) ≠ " Milk " := by
  decide

/-- Claim C4 amended: the OrderItems of the order created from a cart are
exactly the CartItems present at the call with product_id and name
stripped of surrounding whitespace and unit_price and qty unchanged; in
particular, when every cart line already has a stripped product_id and
name, the order items equal the cart items field for field. The order
holds an independent copy, a plain value in this embedding, so later
clearing or mutating the cart cannot change it. -/
theorem C4_order_items_are_stripped_snapshots (cart : Cart) (address : Address)
    (shipping : Dec) (order_id : String) (now : Nat) (order : Order)
    (hco : CheckoutService.create_order_from_cart cart address shipping order_id now
      = .ok order) :
    order.items = cart.items.map trimCopy
      ∧ ((∀ it ∈ cart.items, pyStrip it.product_id = it.product_id ∧ pyStrip it.name = it.name) →
          order.items.map (fun oi => (oi.product_id, oi.name, oi.unit_price, oi.qty))
            = cart.items.map (fun it => (it.product_id, it.name, it.unit_price, it.qty))) := by
  have hitems : order.items = cart.items.map trimCopy := by
    rw [create_order_ok hco]
  refine ⟨hitems, fun hclean => ?_⟩
  rw [hitems, List.map_map]
  apply List.map_congr_left
  intro it hmem
  obtain ⟨h1, h2⟩ := hclean it hmem
  simp [trimCopy, Function.comp, h1, h2]

/-- Witness for the amended C4 at the successful-checkout scenario. -/
theorem C4_order_items_witness :
    milkOrder.items = milkCart.items.map trimCopy
      ∧ ((∀ it ∈ milkCart.items, pyStrip it.product_id = it.product_id ∧ pyStrip it.name = it.name) →
          milkOrder.items.map (fun oi => (oi.product_id, oi.name, oi.unit_price, oi.qty))
            = milkCart.items.map (fun it => (it.product_id, it.name, it.unit_price, it.qty))) :=
  C4_order_items_are_stripped_snapshots milkCart addrA ⟨75, 1⟩ "oid1" 0 milkOrder (by decide)

/-- Lines other than the removed one are looked up unchanged. -/
theorem findItem_removeItem_other : ∀ (l : List CartItem) (p q : String), q ≠ p →
    findItem (removeItem l p) q = findItem l q := by
  intro l
  induction l with
  | nil => intro p q _; rfl
  | cons x xs ih =>
    intro p q hqp
    unfold removeItem
    by_cases hx : x.product_id = p
    · rw [if_pos (by simp [hx])]
      have hxq : (x.product_id == q) = false := by
        simp only [hx, beq_eq_false_iff_ne, ne_eq]
        exact Ne.symm hqp
      unfold findItem
      simp only [List.find?, hxq, cond_false]
    · rw [if_neg (by simp [hx])]
      unfold findItem
      simp only [List.find?]
      cases hq : (x.product_id == q) with
      | true => rfl
      | false =>
        simp only [cond_false]
        exact ih p q hqp

/-- With unique keys, the removed line is gone from the lookup. -/
theorem findItem_removeItem_self : ∀ (l : List CartItem) (p : String),
    (l.map CartItem.product_id).Nodup →
    findItem (removeItem l p) p = none := by
  intro l
  induction l with
  | nil => intro p _; rfl
  | cons x xs ih =>
    intro p hnd
    rw [List.map_cons, List.nodup_cons] at hnd
    obtain ⟨hx, hxs⟩ := hnd
    unfold removeItem
    by_cases hxp : x.product_id = p
    · rw [if_pos (by simp [hxp])]
      unfold findItem
      apply List.find?_eq_none.mpr
      intro it hmem
      simp only [beq_iff_eq]
      intro hc
      apply hx
      rw [hxp, ← hc]
      exact List.mem_map_of_mem CartItem.product_id hmem
    · rw [if_neg (by simp [hxp])]
      have hxq : (x.product_id == p) = false := by
        simp only [beq_eq_false_iff_ne, ne_eq]
        exact hxp
      unfold findItem
      simp only [List.find?, hxq, cond_false]
      exact ih p hxs

/-- Claim C5: updating a quantity to 0 is the remove operation itself:
the two calls return identical results; when the product has no line
both fail with the not-in-cart error, and when it has one both succeed,
the line for the product is gone afterwards and every other line is
looked up unchanged. -/
theorem C5_update_zero_equals_remove (cat : Catalogue) (c : Cart) (p : String)
    (hnd : (c.items.map CartItem.product_id).Nodup) :
    Cart.update_qty cat c p (.vint 0) = Cart.remove c p
      ∧ (findItem c.items p = none → Cart.remove c p = .error .notInCart)
      ∧ (findItem c.items p ≠ none →
          Cart.remove c p = .ok ⟨removeItem c.items p⟩
            ∧ findItem (removeItem c.items p) p = none
            ∧ ∀ q, q ≠ p → findItem (removeItem c.items p) q = findItem c.items q) := by
  refine ⟨?_, ?_, ?_⟩
  · unfold Cart.update_qty
    cases hf : findItem c.items p with
    | none => unfold Cart.remove; rw [hf]
    | some old_item =>
      have h0 : ((PyVal.vint 0) : PyVal).toDec.eqv Dec.zero := by decide
      simp only [if_pos h0]
  · intro hf
    unfold Cart.remove
    rw [hf]
  · intro hf
    cases hfs : findItem c.items p with
    | none => exact absurd hfs hf
    | some it =>
      refine ⟨?_, findItem_removeItem_self c.items p hnd,
              fun q hq => findItem_removeItem_other c.items p q hq⟩
      unfold Cart.remove
      rw [hfs]

/-- Witness for C5 at the scenario cart. -/
theorem C5_update_zero_equals_remove_witness :
    Cart.update_qty milkCat milkCart "MILK1" (.vint 0) = Cart.remove milkCart "MILK1"
      ∧ (findItem milkCart.items "MILK1" = none →
          Cart.remove milkCart "MILK1" = .error .notInCart)
      ∧ (findItem milkCart.items "MILK1" ≠ none →
          Cart.remove milkCart "MILK1" = .ok ⟨removeItem milkCart.items "MILK1"⟩
            ∧ findItem (removeItem milkCart.items "MILK1") "MILK1" = none
            ∧ ∀ q, q ≠ "MILK1" →
                findItem (removeItem milkCart.items "MILK1") q = findItem milkCart.items q) :=
  C5_update_zero_equals_remove milkCat milkCart "MILK1" (by decide)

/-- A key absent from every line is not found. -/
theorem findItem_eq_none {l : List CartItem} {p : String}
    (h : ∀ it ∈ l, it.product_id ≠ p) : findItem l p = none := by
  unfold findItem
  apply List.find?_eq_none.mpr
  intro it hmem
  simp only [beq_iff_eq]
  exact h it hmem

/-- Assigning a fresh key appends the entry at the end. -/
theorem setItem_absent : ∀ (l : List CartItem) (p : String) (x : CartItem),
    (∀ it ∈ l, it.product_id ≠ p) → setItem l p x = l ++ [x] := by
  intro l
  induction l with
  | nil => intro p x _; rfl
  | cons y ys ih =>
    intro p x habs
    unfold setItem
    rw [if_neg (by simp only [beq_iff_eq]; exact habs y (List.mem_cons_self y ys))]
    rw [ih p x (fun it hmem => habs it (List.mem_cons_of_mem y hmem))]
    rfl

/-- Looking up the key of the entry appended after a key-free prefix
finds that entry. -/
theorem findItem_append_of_absent : ∀ (l : List CartItem) (p : String) (x : CartItem),
    (∀ it ∈ l, it.product_id ≠ p) → x.product_id = p →
    findItem (l ++ [x]) p = some x := by
  intro l
  induction l with
  | nil =>
    intro p x _ hx
    unfold findItem
    simp [List.find?, hx]
  | cons y ys ih =>
    intro p x habs hx
    have hy : (y.product_id == p) = false := by
      simp only [beq_eq_false_iff_ne, ne_eq]
      exact habs y (List.mem_cons_self y ys)
    unfold findItem
    simp only [List.cons_append, List.find?, hy, cond_false]
    exact ih p x (fun it hmem => habs it (List.mem_cons_of_mem y hmem)) hx

/-- Assigning to the key of the entry appended after a key-free prefix
replaces exactly that entry. -/
theorem setItem_append_of_absent : ∀ (l : List CartItem) (p : String) (x y : CartItem),
    (∀ it ∈ l, it.product_id ≠ p) → x.product_id = p →
    setItem (l ++ [x]) p y = l ++ [y] := by
  intro l
  induction l with
  | nil =>
    intro p x y _ hx
    show setItem [x] p y = [y]
    unfold setItem
    rw [if_pos (by simp [hx])]
  | cons z zs ih =>
    intro p x y habs hx
    have hz : (z.product_id == p) = false := by
      simp only [beq_eq_false_iff_ne, ne_eq]
      exact habs z (List.mem_cons_self z zs)
    show setItem (z :: (zs ++ [x])) p y = z :: (zs ++ [y])
    unfold setItem
    rw [if_neg (by simp [hz])]
    rw [ih p x y (fun it hmem => habs it (List.mem_cons_of_mem z hmem)) hx]

/-- Claim C6: for a product absent from the cart with catalogue stock s
at both calls, adding quantities q1 and q2 with q1 + q2 at most s yields
exactly one cart line for the product, carrying qty q1 + q2 and the unit
price captured from the catalogue at the first add, even when the
catalogue price changed to a different value before the second add. -/
theorem C6_add_twice_price_snapshot (cat1 cat2 : Catalogue) (c : Cart) (p n1 n2 : String)
    (pr1 pr2 : Dec) (s q1 q2 : Int)
    (h1 : cat1 p = some ⟨n1, pr1, s⟩) (h2 : cat2 p = some ⟨n2, pr2, s⟩)
    (hn1 : ¬ pyStrip n1 = "") (hn2 : ¬ pyStrip n2 = "")
    (hp1 : ¬ pr1.lt Dec.zero) (hp2 : ¬ pr2.lt Dec.zero)
    (hq1 : 1 ≤ q1) (hq2 : 1 ≤ q2) (hs : q1 + q2 ≤ s)
    (habs : ∀ it ∈ c.items, it.product_id ≠ p) :
    Cart.add cat1 c p (.vint q1) = .ok ⟨c.items ++ [⟨p, n1, pr1, q1⟩]⟩
      ∧ Cart.add cat2 ⟨c.items ++ [⟨p, n1, pr1, q1⟩]⟩ p (.vint q2)
          = .ok ⟨c.items ++ [⟨p, n1, pr1, q1 + q2⟩]⟩
      ∧ (c.items ++ [(⟨p, n1, pr1, q1 + q2⟩ : CartItem)]).countP
          (fun it => it.product_id == p) = 1 := by
  have hfind : findItem c.items p = none := findItem_eq_none habs
  have hex : existingQty c p = 0 := by unfold existingQty; rw [hfind]
  refine ⟨?_, ?_, ?_⟩
  · simp only [Cart.add, h1, hex, hfind, CartItem.make]
    rw [if_neg (by omega), if_neg hn1, if_neg hp1, if_neg (by omega),
        if_neg (by omega), if_neg hp1, if_neg (by omega)]
    simp only []
    rw [setItem_absent c.items p ⟨p, n1, pr1, 0 + q1⟩ habs]
    rw [show (0 : Int) + q1 = q1 by omega]
  · have hfind2 : findItem (c.items ++ [⟨p, n1, pr1, q1⟩]) p = some ⟨p, n1, pr1, q1⟩ :=
      findItem_append_of_absent c.items p ⟨p, n1, pr1, q1⟩ habs rfl
    have hex2 : existingQty ⟨c.items ++ [⟨p, n1, pr1, q1⟩]⟩ p = q1 := by
      unfold existingQty
      rw [hfind2]
    simp only [Cart.add, h2, hex2, hfind2, CartItem.with_qty, CartItem.make]
    rw [if_neg (by omega), if_neg hn2, if_neg hp2, if_neg (by omega),
        if_neg (by omega), if_neg hp1, if_neg (by omega)]
    simp only []
    rw [setItem_append_of_absent c.items p ⟨p, n1, pr1, q1⟩ ⟨p, n1, pr1, q1 + q2⟩ habs rfl]
  · rw [List.countP_append]
    have h0 : c.items.countP (fun it => it.product_id == p) = 0 :=
      List.countP_eq_zero.mpr (fun it hmem => by
        simp only [beq_iff_eq]
        exact habs it hmem)
    rw [h0]
    simp [List.countP_cons]

/-- Catalogue state at the first add of the price-snapshot scenario. -/
def penCat1 : Catalogue :=
  fun pid => if pid = "P1" then some ⟨"Pen", ⟨10, 0⟩, 10⟩ else none

/-- Catalogue state at the second add: same stock, raised price. -/
def penCat2 : Catalogue :=
  fun pid => if pid = "P1" then some ⟨"Pen", ⟨12, 0⟩, 10⟩ else none

/-- Witness for C6: two adds of P1 with a price change in between keep
the first price snapshot 10 and accumulate the quantity. -/
theorem C6_add_twice_price_snapshot_witness :
    Cart.add penCat1 ⟨[]⟩ "P1" (.vint 2) = .ok ⟨[⟨"P1", "Pen", ⟨10, 0⟩, 2⟩]⟩
      ∧ Cart.add penCat2 ⟨[⟨"P1", "Pen", ⟨10, 0⟩, 2⟩]⟩ "P1" (.vint 3)
          = .ok ⟨[⟨"P1", "Pen", ⟨10, 0⟩, 5⟩]⟩
      ∧ ([(⟨"P1", "Pen", ⟨10, 0⟩, 5⟩ : CartItem)]).countP
          (fun it => it.product_id == "P1") = 1 := by
  have h := C6_add_twice_price_snapshot penCat1 penCat2 ⟨[]⟩ "P1" "Pen" "Pen"
    ⟨10, 0⟩ ⟨12, 0⟩ 10 2 3 (by decide) (by decide) (by decide) (by decide)
    (by decide) (by decide) (by omega) (by omega) (by omega)
    (fun it hmem => absurd hmem (List.not_mem_nil it))
  exact ⟨h.1, h.2.1, h.2.2⟩

/-- Catalogue of the stock-exceeded scenario: P1 with stock 20. -/
def penCat : Catalogue :=
  fun pid => if pid = "P1" then some ⟨"Pen", ⟨10, 0⟩, 20⟩ else none

/-- Cart already holding two units of P1. -/
def penCart : Cart := ⟨[⟨"P1", "Pen", ⟨10, 0⟩, 2⟩]⟩

/-- Claim C7: with a well-formed catalogue record, Cart.add fails with
the out-of-stock error carrying the reported stock whenever the quantity
already in the cart (zero when the product has no line) plus the
requested quantity exceeds that stock — for every cart state, the empty
cart included — and Cart.update_qty fails the same way whenever the
requested quantity is an increase over the existing line exceeding that
stock; in this state-passing embedding a failing call returns only the
error, so the cart value is left exactly as it was. -/
theorem C7_out_of_stock (cat : Catalogue) (c : Cart) (p : String)
    (q : Int) (prod : Product)
    (hcat : cat p = some prod)
    (hname : ¬ pyStrip prod.name = "")
    (hprice : ¬ prod.price.lt Dec.zero)
    (hstock : 0 ≤ prod.stock)
    (hq : 1 ≤ q)
    (haddover : prod.stock < existingQty c p + q) :
    Cart.add cat c p (.vint q) = .error (.outOfStock prod.stock)
      ∧ (∀ it, findItem c.items p = some it → it.qty < q → prod.stock < q →
          Cart.update_qty cat c p (.vint q) = .error (.outOfStock prod.stock)) := by
  constructor
  · simp only [Cart.add, hcat]
    rw [if_neg (by omega), if_neg hname, if_neg hprice, if_neg (by omega),
        if_pos haddover]
  · intro it hit hinc hupover
    simp only [Cart.update_qty, hit, hcat]
    rw [if_neg (by simp [PyVal.toDec, Dec.eqv, Dec.zero, pow10]; omega),
        if_neg (by omega), if_neg (by omega), if_pos hinc,
        if_neg (by omega), if_pos hupover]

/-- Witness for C7, covering the three cited cases against stock 20:
adding 25 to an empty cart, adding 19 on top of an existing line of 2
(overflow with the requested quantity itself within stock), and
updating the existing line of 2 up to 25. -/
theorem C7_out_of_stock_witness :
    Cart.add penCat ⟨[]⟩ "P1" (.vint 25) = .error (.outOfStock 20)
      ∧ Cart.add penCat penCart "P1" (.vint 19) = .error (.outOfStock 20)
      ∧ Cart.update_qty penCat penCart "P1" (.vint 25) = .error (.outOfStock 20) := by
  have h1 := C7_out_of_stock penCat ⟨[]⟩ "P1" 25 ⟨"Pen", ⟨10, 0⟩, 20⟩
    (by decide) (by decide) (by decide) (by decide) (by decide) (by decide)
  have h2 := C7_out_of_stock penCat penCart "P1" 19 ⟨"Pen", ⟨10, 0⟩, 20⟩
    (by decide) (by decide) (by decide) (by decide) (by decide) (by decide)
  have h3 := C7_out_of_stock penCat penCart "P1" 25 ⟨"Pen", ⟨10, 0⟩, 20⟩
    (by decide) (by decide) (by decide) (by decide) (by decide) (by decide)
  exact ⟨h1.1, h2.1, h3.2 ⟨"P1", "Pen", ⟨10, 0⟩, 2⟩ (by decide) (by decide) (by decide)⟩

/-- Cart with subtotal 60.00 for the free-shipping scenario. -/
def cart60 : Cart := ⟨[⟨"BULK1", "Bulk", ⟨60, 0⟩, 1⟩]⟩

/-- Claim C8: cost_for returns zero exactly when a free-shipping
threshold is configured and the cart subtotal reaches it, and the flat
rate otherwise; it is a pure function and the address argument never
influences the result; concretely, subtotal 60.00 against threshold
50.00 yields zero. -/
theorem C8_cost_for (p : ShippingPolicy) (c : Cart) (a : Address) :
    (∀ t, p.free_over = some t → t.le c.subtotal → p.cost_for c a = Dec.zero)
      ∧ (∀ t, p.free_over = some t → ¬ t.le c.subtotal → p.cost_for c a = p.flat_rate)
      ∧ (p.free_over = none → p.cost_for c a = p.flat_rate)
      ∧ (∀ a2, p.cost_for c a = p.cost_for c a2)
      ∧ ShippingPolicy.cost_for ⟨⟨75, 1⟩, some ⟨50, 0⟩⟩ cart60 addrA = Dec.zero := by
  refine ⟨?_, ?_, ?_, fun a2 => rfl, by decide⟩
  · intro t ht hle
    simp only [ShippingPolicy.cost_for, ht]
    rw [if_pos hle]
  · intro t ht hle
    simp only [ShippingPolicy.cost_for, ht]
    rw [if_neg hle]
  · intro ht
    simp only [ShippingPolicy.cost_for, ht]

/-- Witness for C8: threshold met gives zero, no threshold gives the
flat rate. -/
theorem C8_cost_for_witness :
    ShippingPolicy.cost_for ⟨⟨75, 1⟩, some ⟨50, 0⟩⟩ cart60 addrA = Dec.zero
      ∧ ShippingPolicy.cost_for ⟨⟨75, 1⟩, none⟩ cart60 addrA = (⟨75, 1⟩ : Dec) := by
  refine ⟨(C8_cost_for ⟨⟨75, 1⟩, some ⟨50, 0⟩⟩ cart60 addrA).1 ⟨50, 0⟩ rfl (by decide), ?_⟩
  exact (C8_cost_for ⟨⟨75, 1⟩, none⟩ cart60 addrA).2.2.1 rfl

/-- Claim C9: mark_paid succeeds exactly on a PENDING order, setting the
status to PAID and the payment timestamp; on any other status it fails
with the invalid-state-transition error and, the embedding being
state-passing, returns no changed order; a successfully paid order
refuses a second mark_paid, so the status only ever moves from PENDING
to PAID and the payment timestamp is set at most once. -/
theorem C9_mark_paid (o : Order) (now now2 : Nat) :
    (o.status = .PENDING →
      o.mark_paid now = .ok { o with status := .PAID, paid_at := some now })
      ∧ (o.status ≠ .PENDING → o.mark_paid now = .error .invalidStateTransition)
      ∧ (∀ o2, o.mark_paid now = .ok o2 →
          o2.status = .PAID ∧ o2.paid_at = some now
            ∧ o2.mark_paid now2 = .error .invalidStateTransition) := by
  refine ⟨?_, ?_, ?_⟩
  · intro h
    unfold Order.mark_paid
    rw [if_neg (by simp [h])]
  · intro h
    unfold Order.mark_paid
    rw [if_pos h]
  · intro o2 h
    unfold Order.mark_paid at h
    by_cases hs : o.status = .PENDING
    · rw [if_neg (by simp [hs])] at h
      injection h with h2
      refine ⟨by rw [← h2], by rw [← h2], ?_⟩
      rw [← h2]
      unfold Order.mark_paid
      rw [if_pos (by simp)]
    · rw [if_pos hs] at h
      exact Except.noConfusion h

/-- Witness for C9 at the scenario order. -/
theorem C9_mark_paid_witness :
    milkOrder.mark_paid 5 = .ok { milkOrder with status := .PAID, paid_at := some 5 } :=
  (C9_mark_paid milkOrder 5 6).1 rfl

/-- Claim C10: for a product that has a line in the cart, update_qty
succeeds and removes the line for every quantity argument whose numeric
value equals 0, booleans and floats included, because the removal check
runs before the integer and boolean type validation. -/
theorem C10_update_qty_numeric_zero (cat : Catalogue) (c : Cart) (p : String) (q : PyVal)
    (hit : findItem c.items p ≠ none)
    (hq : q.toDec.eqv Dec.zero) :
    Cart.update_qty cat c p q = .ok ⟨removeItem c.items p⟩ := by
  unfold Cart.update_qty
  cases hf : findItem c.items p with
  | none => exact absurd hf hit
  | some old_item =>
    simp only [if_pos hq]
    unfold Cart.remove
    rw [hf]

/-- Witness for C10: both the boolean False and the float 0.0 remove the
MILK1 line. -/
theorem C10_update_qty_numeric_zero_witness :
    Cart.update_qty milkCat milkCart "MILK1" (.vbool false)
        = .ok ⟨removeItem milkCart.items "MILK1"⟩
      ∧ Cart.update_qty milkCat milkCart "MILK1" (.vfloat ⟨0, 0⟩)
          = .ok ⟨removeItem milkCart.items "MILK1"⟩ :=
  ⟨C10_update_qty_numeric_zero milkCat milkCart "MILK1" (.vbool false) (by decide) (by decide),
   C10_update_qty_numeric_zero milkCat milkCart "MILK1" (.vfloat ⟨0, 0⟩) (by decide) (by decide)⟩

end YLOS

